import Mathlib

/-!
Verification model of the MaxScale Avro router (binlog-to-Avro converter).

The definitions below are shallow embeddings of the C sources:
  * maxavro_write.c         - Avro datablock buffer management and finalization
  * avro_rbr.c              - table-map registry and row-event decoding
  * avro_client.c/avro_file.c - CDC client registration and the binlog read loop
  * mysql_binlog.c          - column-type classification and field sizes

Bytes are natural numbers below 256, buffers are lists of bytes, and C
structs become Lean structures.  Functions whose definitions live outside
the analysed sources (the maxavro byte encoders, the MySQL length-encoded
integer reader, the DDL regular expressions) are modelled from the design
document and are marked as such in their doc comments.
-/

/-! ## Byte-level helpers -/

/-- Little-endian read of the first `n` bytes of a buffer, as done by
`memcpy` into a zero-initialised integer on a little-endian machine and by
the `EXTRACT16/24/32` macros of blr_defines.h.  Missing bytes read as 0. -/
def leRead : List Nat → Nat → Nat
  | _, 0 => 0
  | bs, Nat.succ k => bs.headD 0 + 256 * leRead bs.tail k

/-! ## maxavro datablock writer (maxavro_write.c)

`MAXAVRO_DATABLOCK` keeps an in-memory buffer of encoded records.  The
model tracks the allocated capacity (`buffersize`), the number of valid
bytes (`datasize`), the record count, and the valid bytes themselves
(`buffer`, holding the first `datasize` encoded bytes). -/

structure MAXAVRO_DATABLOCK where
  buffersize : Nat
  datasize : Nat
  records : Nat
  buffer : List Nat
deriving Repr, DecidableEq

/-- Avro object container file, as far as the writer is concerned: the
bytes on disk and the 16-byte sync marker.  The writer keeps the stdio
stream positioned at end-of-file, so `ftell` is the content length. -/
structure MAXAVRO_FILE where
  contents : List Nat
  sync : List Nat
deriving Repr, DecidableEq

def SYNC_MARKER_SIZE : Nat := 16

/-- Modelled from the spec: the Avro zig-zag mapping of a 64-bit value,
`(n << 1) ^ (n >> 63)` in uint64 arithmetic.  The C implementation lives
in maxavro_write.c, which is not among the analysed sources. -/
def zigzag64 (n : Nat) : Nat :=
  ((2 * n) % 2 ^ 64) ^^^ (n / 2 ^ 63)

/-- Emit a value in 7-bit groups, low group first, with the high bit of a
byte meaning that more groups follow.  The fuel argument only bounds the
recursion depth; 20 groups cover far more than 64 bits. -/
def varintBytesAux : Nat → Nat → List Nat
  | 0, z => [z]
  | fuel + 1, z =>
      if z < 0x80 then [z] else (z % 0x80 + 0x80) :: varintBytesAux fuel (z / 0x80)

/-- Modelled from the spec: emit a value in 7-bit groups, low group first,
high bit of a byte meaning that more groups follow. -/
def varintBytes (z : Nat) : List Nat :=
  varintBytesAux 20 z

/-- Modelled from the spec: `maxavro_encode_integer` writes the zig-zag
variable-length encoding of `val`. -/
def maxavro_encode_integer (val : Nat) : List Nat :=
  varintBytes (zigzag64 val)

/-- Modelled from the spec: `maxavro_encode_string` writes
`lenenc(len) | bytes`, the length as an Avro integer followed by the raw
string bytes. -/
def maxavro_encode_string (str : List Nat) : List Nat :=
  maxavro_encode_integer str.length ++ str

/-- Model of `reallocate_datablock`: double the buffer capacity; `allocok`
says whether the underlying `realloc` succeeds. -/
def reallocate_datablock (allocok : Bool) (block : MAXAVRO_DATABLOCK) :
    Option MAXAVRO_DATABLOCK :=
  if allocok then some { block with buffersize := block.buffersize * 2 } else none

/-- Model of `maxavro_datablock_add_integer`.  The C code grows the buffer
(once) when `datasize + 9 >= buffersize` and then writes the encoding at
offset `datasize`. -/
def maxavro_datablock_add_integer (allocok : Bool) (block : MAXAVRO_DATABLOCK)
    (val : Nat) : Option MAXAVRO_DATABLOCK :=
  match (if block.datasize + 9 ≥ block.buffersize
         then reallocate_datablock allocok block else some block) with
  | none => none
  | some b =>
      let added := maxavro_encode_integer val
      some { b with buffer := b.buffer ++ added, datasize := b.datasize + added.length }

/-- Model of `maxavro_datablock_add_string`.  The C code grows the buffer
(once, by doubling) when `datasize + 9 + strlen(str) >= buffersize` and
then writes the whole encoded string at offset `datasize`. -/
def maxavro_datablock_add_string (allocok : Bool) (block : MAXAVRO_DATABLOCK)
    (str : List Nat) : Option MAXAVRO_DATABLOCK :=
  match (if block.datasize + 9 + str.length ≥ block.buffersize
         then reallocate_datablock allocok block else some block) with
  | none => none
  | some b =>
      let added := maxavro_encode_string str
      some { b with buffer := b.buffer ++ added, datasize := b.datasize + added.length }

/-- Model of `maxavro_datablock_add_float`: the 4 little-endian bytes of
the IEEE 754 bit pattern are appended; the size check reserves
`sizeof(float) = 4` bytes. -/
def maxavro_datablock_add_float (allocok : Bool) (block : MAXAVRO_DATABLOCK)
    (bits : Nat) : Option MAXAVRO_DATABLOCK :=
  match (if block.datasize + 4 ≥ block.buffersize
         then reallocate_datablock allocok block else some block) with
  | none => none
  | some b =>
      let added := [bits % 256, bits / 256 % 256, bits / 256 ^ 2 % 256, bits / 256 ^ 3 % 256]
      some { b with buffer := b.buffer ++ added, datasize := b.datasize + added.length }

/-- Model of `maxavro_datablock_add_double`: the 8 little-endian bytes of
the IEEE 754 bit pattern are appended; the size check reserves
`sizeof(double) = 8` bytes. -/
def maxavro_datablock_add_double (allocok : Bool) (block : MAXAVRO_DATABLOCK)
    (bits : Nat) : Option MAXAVRO_DATABLOCK :=
  match (if block.datasize + 8 ≥ block.buffersize
         then reallocate_datablock allocok block else some block) with
  | none => none
  | some b =>
      let added := (List.range 8).map fun i => bits / 256 ^ i % 256
      some { b with buffer := b.buffer ++ added, datasize := b.datasize + added.length }

/-- Outcome of one C write call (`maxavro_write_integer` or `fwrite`):
either it succeeds and appends every byte, or it fails after appending a
prefix of `written` bytes. -/
structure WriteOutcome where
  ok : Bool
  written : Nat
deriving Repr, DecidableEq

/-- Append the bytes a write call actually put into the file. -/
def applyWrite (file : List Nat) (bytes : List Nat) (o : WriteOutcome) :
    List Nat × Bool :=
  if o.ok then (file ++ bytes, true) else (file ++ bytes.take o.written, false)

/-- Model of `maxavro_datablock_finalize`.  `pos = ftell(file)` is the
end-of-file position.  The four writes are the record count, the data
size, the payload bytes and the sync marker, short-circuiting on the
first failure; on failure the file is truncated back to `pos` (and the
stream seeked to end-of-file), on success the block is reset exactly as
the C code resets it. -/
def maxavro_datablock_finalize (f : MAXAVRO_FILE) (block : MAXAVRO_DATABLOCK)
    (o1 o2 o3 o4 : WriteOutcome) : MAXAVRO_FILE × MAXAVRO_DATABLOCK × Bool :=
  let pos := f.contents.length
  let r1 := applyWrite f.contents (maxavro_encode_integer block.records) o1
  if ¬ r1.2 then ({ f with contents := r1.1.take pos }, block, false)
  else
    let r2 := applyWrite r1.1 (maxavro_encode_integer block.datasize) o2
    if ¬ r2.2 then ({ f with contents := r2.1.take pos }, block, false)
    else
      let r3 := applyWrite r2.1 (block.buffer.take block.datasize) o3
      if ¬ r3.2 then ({ f with contents := r3.1.take pos }, block, false)
      else
        let r4 := applyWrite r3.1 (f.sync.take SYNC_MARKER_SIZE) o4
        if ¬ r4.2 then ({ f with contents := r4.1.take pos }, block, false)
        else
          ({ f with contents := r4.1 },
           { block with buffersize := 0, records := 0 }, true)

/-! ## Binlog constants (blr_defines.h, mysql_binlog.h) -/

def BINLOG_EVENT_HDR_LEN : Nat := 19
def QUERY_EVENT : Nat := 0x02
def STOP_EVENT : Nat := 0x03
def ROTATE_EVENT : Nat := 0x04
def FORMAT_DESCRIPTION_EVENT : Nat := 0x0F
def XID_EVENT : Nat := 0x10
def TABLE_MAP_EVENT : Nat := 0x13
def WRITE_ROWS_EVENTv0 : Nat := 0x14
def UPDATE_ROWS_EVENTv0 : Nat := 0x15
def DELETE_ROWS_EVENTv0 : Nat := 0x16
def WRITE_ROWS_EVENTv1 : Nat := 0x17
def UPDATE_ROWS_EVENTv1 : Nat := 0x18
def DELETE_ROWS_EVENTv1 : Nat := 0x19
def WRITE_ROWS_EVENTv2 : Nat := 0x1e
def UPDATE_ROWS_EVENTv2 : Nat := 0x1f
def DELETE_ROWS_EVENTv2 : Nat := 0x20
def MARIADB10_GTID_EVENT : Nat := 0xa2
def MAX_EVENT_TYPE_MARIADB10 : Nat := 0xa3

def TABLE_COL_TYPE_DECIMAL : Nat := 0x00
def TABLE_COL_TYPE_TINY : Nat := 0x01
def TABLE_COL_TYPE_SHORT : Nat := 0x02
def TABLE_COL_TYPE_LONG : Nat := 0x03
def TABLE_COL_TYPE_FLOAT : Nat := 0x04
def TABLE_COL_TYPE_DOUBLE : Nat := 0x05
def TABLE_COL_TYPE_TIMESTAMP : Nat := 0x07
def TABLE_COL_TYPE_LONGLONG : Nat := 0x08
def TABLE_COL_TYPE_INT24 : Nat := 0x09
def TABLE_COL_TYPE_DATE : Nat := 0x0a
def TABLE_COL_TYPE_TIME : Nat := 0x0b
def TABLE_COL_TYPE_DATETIME : Nat := 0x0c
def TABLE_COL_TYPE_YEAR : Nat := 0x0d
def TABLE_COL_TYPE_VARCHAR : Nat := 0x0f
def TABLE_COL_TYPE_BIT : Nat := 0x10
def TABLE_COL_TYPE_TIMESTAMP2 : Nat := 0x11
def TABLE_COL_TYPE_DATETIME2 : Nat := 0x12
def TABLE_COL_TYPE_NEWDECIMAL : Nat := 0xf6
def TABLE_COL_TYPE_ENUM : Nat := 0xf7
def TABLE_COL_TYPE_SET : Nat := 0xf8
def TABLE_COL_TYPE_TINY_BLOB : Nat := 0xf9
def TABLE_COL_TYPE_MEDIUM_BLOB : Nat := 0xfa
def TABLE_COL_TYPE_LONG_BLOB : Nat := 0xfb
def TABLE_COL_TYPE_BLOB : Nat := 0xfc
def TABLE_COL_TYPE_VAR_STRING : Nat := 0xfd
def TABLE_COL_TYPE_STRING : Nat := 0xfe
def TABLE_COL_TYPE_GEOMETRY : Nat := 0xff

def ROW_EVENT_END_STATEMENT : Nat := 0x0001
def TABLE_DUMMY_ID : Nat := 0x00ffffff

/-! ## Column type classification (mysql_binlog.c) -/

def column_is_blob (t : Nat) : Bool :=
  t == TABLE_COL_TYPE_TINY_BLOB || t == TABLE_COL_TYPE_MEDIUM_BLOB ||
  t == TABLE_COL_TYPE_LONG_BLOB || t == TABLE_COL_TYPE_BLOB

def column_is_variable_string (t : Nat) : Bool :=
  t == TABLE_COL_TYPE_DECIMAL || t == TABLE_COL_TYPE_VARCHAR ||
  t == TABLE_COL_TYPE_BIT || t == TABLE_COL_TYPE_NEWDECIMAL ||
  t == TABLE_COL_TYPE_VAR_STRING || t == TABLE_COL_TYPE_GEOMETRY

def column_is_bit (t : Nat) : Bool :=
  t == TABLE_COL_TYPE_BIT

def column_is_temporal (t : Nat) : Bool :=
  t == TABLE_COL_TYPE_YEAR || t == TABLE_COL_TYPE_DATE ||
  t == TABLE_COL_TYPE_TIME || t == TABLE_COL_TYPE_DATETIME ||
  t == TABLE_COL_TYPE_DATETIME2 || t == TABLE_COL_TYPE_TIMESTAMP ||
  t == TABLE_COL_TYPE_TIMESTAMP2

def column_is_fixed_string (t : Nat) : Bool :=
  t == TABLE_COL_TYPE_STRING

def fixed_string_is_enum (t : Nat) : Bool :=
  t == TABLE_COL_TYPE_ENUM || t == TABLE_COL_TYPE_SET

/-- Size in bytes of a packed temporal value (`temporal_field_size`);
`d` is the stored decimal count from the column metadata. -/
def temporal_field_size (t d : Nat) : Nat :=
  if t == TABLE_COL_TYPE_YEAR then 1
  else if t == TABLE_COL_TYPE_TIME || t == TABLE_COL_TYPE_DATE then 3
  else if t == TABLE_COL_TYPE_DATETIME || t == TABLE_COL_TYPE_TIMESTAMP then 4
  else if t == TABLE_COL_TYPE_TIMESTAMP2 then 4 + (d + 1) / 2
  else if t == TABLE_COL_TYPE_DATETIME2 then 5 + (d + 1) / 2
  else 0

/-- Number of bytes `unpack_numeric_field` copies for each numeric type. -/
def unpack_numeric_field_size (t : Nat) : Nat :=
  if t == TABLE_COL_TYPE_LONG || t == TABLE_COL_TYPE_FLOAT then 4
  else if t == TABLE_COL_TYPE_INT24 then 3
  else if t == TABLE_COL_TYPE_LONGLONG || t == TABLE_COL_TYPE_DOUBLE then 8
  else if t == TABLE_COL_TYPE_SHORT then 2
  else if t == TABLE_COL_TYPE_TINY then 1
  else 0

/-- Per-type metadata length used by the row decoder (`get_metadata_len`
in avro_rbr.c). -/
def get_metadata_len (t : Nat) : Nat :=
  if t == TABLE_COL_TYPE_STRING || t == TABLE_COL_TYPE_VAR_STRING ||
     t == TABLE_COL_TYPE_VARCHAR || t == TABLE_COL_TYPE_DECIMAL ||
     t == TABLE_COL_TYPE_NEWDECIMAL || t == TABLE_COL_TYPE_ENUM ||
     t == TABLE_COL_TYPE_SET || t == TABLE_COL_TYPE_BIT then 2
  else if t == TABLE_COL_TYPE_BLOB || t == TABLE_COL_TYPE_FLOAT ||
          t == TABLE_COL_TYPE_DOUBLE then 1
  else 0

/-- Bit `i` of a little-endian bitmap, as computed by `bit_is_set` in
avro_rbr.c. -/
def bit_is_set (bitmap : List Nat) (i : Nat) : Bool :=
  (bitmap.getD (i / 8) 0) >>> (i % 8) &&& 1 == 1

/-! ## Cursor helpers over event payloads.

The C code walks a `uint8_t *ptr`; the model keeps the whole payload and
an offset.  A read past the end of the payload yields 0 (the C code would
read whatever garbage follows the buffer). -/

def byteAt (bs : List Nat) (k : Nat) : Nat := bs.getD k 0

def sliceAt (bs : List Nat) (off len : Nat) : List Nat := (bs.drop off).take len

/-- Modelled from the spec: `leint_consume` (mysql_utils), the MySQL
length-encoded integer at offset `off`.  First byte below 0xfb is the
value itself; 0xfc, 0xfd, 0xfe prefix 2-, 3- and 8-byte little-endian
values.  Returns the value and the number of bytes consumed. -/
def leint_at (bs : List Nat) (off : Nat) : Nat × Nat :=
  let b0 := byteAt bs off
  if b0 < 0xfb then (b0, 1)
  else if b0 == 0xfc then (leRead (bs.drop (off + 1)) 2, 3)
  else if b0 == 0xfd then (leRead (bs.drop (off + 1)) 3, 4)
  else (leRead (bs.drop (off + 1)) 8, 9)

/-- Modelled from the spec: `lestr_consume` (mysql_utils), a
length-encoded string at offset `off`: lenenc length followed by that
many bytes.  Returns the string bytes and the number of bytes consumed. -/
def lestr_at (bs : List Nat) (off : Nat) : List Nat × Nat :=
  let r := leint_at bs off
  (sliceAt bs (off + r.2) r.1, r.2 + r.1)

/-! ## Table metadata structures (avrorouter.h) -/

/-- A CREATE TABLE abstraction (`TABLE_CREATE`).  Column names are
represented by their index; the fields the claims touch are the column
count and the schema version. -/
structure TABLE_CREATE where
  columns : Nat
  version : Nat
deriving Repr, DecidableEq

/-- A table map read from a `TABLE_MAP_EVENT` (`TABLE_MAP`). -/
structure TABLE_MAP where
  id : Nat
  columns : Nat
  column_types : List Nat
  column_metadata : List Nat
  table_create : TABLE_CREATE
  version : Nat
  database : String
  table : String
deriving Repr, DecidableEq

/-- An open Avro output file (`AVRO_TABLE`); only its identity matters
for the claims. -/
structure AVRO_TABLE where
  filename : String
deriving Repr, DecidableEq

def MAX_MAPPED_TABLES : Nat := 1024

/-- Byte size of a `TABLE_MAP *` pointer on the LP64 platforms MaxScale
targets (64-bit Linux). -/
def SIZEOF_TABLE_MAP_PTR : Nat := 8

/-- Value of the C expression `sizeof(router->active_maps)`:
`active_maps` is an array of `MAX_MAPPED_TABLES` pointers, so its byte
size is 1024 * 8, not 1024. -/
def sizeof_active_maps : Nat := MAX_MAPPED_TABLES * SIZEOF_TABLE_MAP_PTR

/-- Slot index used by `handle_table_map_event` and `handle_row_event`:
both compute `id % sizeof(router->active_maps)`. -/
def active_maps_index (id : Nat) : Nat := id % sizeof_active_maps

/-- Hashtable keyed by the `"database.table"` identifier, modelled as an
association list. -/
def hashtable_fetch {α : Type} (tbl : List (String × α)) (key : String) : Option α :=
  (tbl.find? (fun kv => kv.1 == key)).map (fun kv => kv.2)

def hashtable_delete {α : Type} (tbl : List (String × α)) (key : String) :
    List (String × α) :=
  tbl.filter (fun kv => kv.1 != key)

def hashtable_add {α : Type} (tbl : List (String × α)) (key : String) (v : α) :
    List (String × α) :=
  (key, v) :: tbl

/-- The `"%s.%s"` identifier used as hashtable key. -/
def table_ident (db tbl : String) : String := db ++ "." ++ tbl

/-- The router state touched by the table-map registry and row decoder
(fields of `AVRO_INSTANCE`). -/
structure RouterRbr where
  event_type_hdr_lens : List Nat
  active_maps : List (Option TABLE_MAP)
  table_maps : List (String × TABLE_MAP)
  open_tables : List (String × AVRO_TABLE)
  created_tables : List (String × TABLE_CREATE)
  current_gtid : String
deriving Repr, DecidableEq

/-- Replication event header (`REP_HEADER`), filled from the 19 header
bytes. -/
structure REP_HEADER where
  timestamp : Nat
  event_type : Nat
  serverid : Nat
  event_size : Nat
  next_pos : Nat
  flags : Nat
deriving Repr, DecidableEq

/-! ## Table-map event handling (avro_rbr.c, handle_table_map_event) -/

/-- Modelled from the spec: the fields `read_table_info` and
`table_map_alloc` (avro_schema.c, outside the analysed sources) parse
out of a TABLE_MAP_EVENT payload: the 6-byte table id, names, column
count, types and metadata. -/
structure TableMapEventData where
  id : Nat
  database : String
  table : String
  columns : Nat
  column_types : List Nat
  column_metadata : List Nat
deriving Repr, DecidableEq

/-- Modelled from the spec: `table_map_alloc` binds the parsed event data
to the current `TABLE_CREATE`, copying its version. -/
def table_map_alloc (e : TableMapEventData) (create : TABLE_CREATE) : TABLE_MAP :=
  { id := e.id, columns := e.columns, column_types := e.column_types,
    column_metadata := e.column_metadata, table_create := create,
    version := create.version, database := e.database, table := e.table }

/-- Model of `handle_table_map_event`: look up the CREATE for the mapped
table; when there is no previous map or the schema version changed,
build a new map and Avro table, clear the old map's active slot, replace
both hashtable entries and publish the new map into
`active_maps[id % sizeof(active_maps)]`.  JSON-schema generation and
Avro file allocation are modelled as succeeding. -/
def handle_table_map_event (r : RouterRbr) (e : TableMapEventData) :
    RouterRbr × Bool :=
  let ident := table_ident e.database e.table
  match hashtable_fetch r.created_tables ident with
  | none => (r, false)
  | some create =>
      let old := hashtable_fetch r.table_maps ident
      if (match old with
          | none => true
          | some o => o.version != create.version) then
        let map := table_map_alloc e create
        let avro_table : AVRO_TABLE := { filename := ident }
        let r1 := match old with
          | some o =>
              { r with active_maps := r.active_maps.set (active_maps_index o.id) none }
          | none => r
        let r2 := { r1 with
          table_maps := hashtable_add (hashtable_delete r1.table_maps ident) ident map,
          open_tables := hashtable_add (hashtable_delete r1.open_tables ident) ident avro_table }
        let r3 := { r2 with
          active_maps := r2.active_maps.set (active_maps_index map.id) (some map) }
        (r3, true)
      else (r, true)

/-! ## Row-event decoding (avro_rbr.c) -/

def WRITE_EVENT : Int := 0
def UPDATE_EVENT : Int := 1
def UPDATE_EVENT_AFTER : Int := 2
def DELETE_EVENT : Int := 3

/-- Model of `get_event_type`. -/
def get_event_type (event : Nat) : Int :=
  if event == WRITE_ROWS_EVENTv0 || event == WRITE_ROWS_EVENTv1 ||
     event == WRITE_ROWS_EVENTv2 then WRITE_EVENT
  else if event == UPDATE_ROWS_EVENTv0 || event == UPDATE_ROWS_EVENTv1 ||
          event == UPDATE_ROWS_EVENTv2 then UPDATE_EVENT
  else if event == DELETE_ROWS_EVENTv0 || event == DELETE_ROWS_EVENTv1 ||
          event == DELETE_ROWS_EVENTv2 then DELETE_EVENT
  else -1

/-- Values the row decoder stores into an Avro record field, one
constructor per `avro_value_set_*` call shape in
`process_row_event_data` and `set_numeric_field_value`. -/
inductive AvroValue where
  | vnull
  | vint (n : Nat)
  | vfloat (raw : Nat)
  | venum (v : Nat)
  | vfix (s : List Nat)
  | vvar (s : List Nat)
  | vbits (n : Nat)
  | vbytes (b : List Nat)
  | vtemporal (t : Nat) (raw : List Nat)
deriving Repr, DecidableEq

/-- Model of `set_numeric_field_value`: integers are read little-endian
(zero-extended, as `memcpy` into a zeroed `int64_t` does); float and
double keep their raw little-endian pattern; unknown types set nothing. -/
def set_numeric_field_value (t : Nat) (bytes : List Nat) : Option AvroValue :=
  if t == TABLE_COL_TYPE_TINY then some (AvroValue.vint (byteAt bytes 0))
  else if t == TABLE_COL_TYPE_SHORT then some (AvroValue.vint (leRead bytes 2))
  else if t == TABLE_COL_TYPE_INT24 then some (AvroValue.vint (leRead bytes 3))
  else if t == TABLE_COL_TYPE_LONG then some (AvroValue.vint (leRead bytes 4))
  else if t == TABLE_COL_TYPE_LONGLONG then some (AvroValue.vint (leRead bytes 8))
  else if t == TABLE_COL_TYPE_FLOAT then some (AvroValue.vfloat (leRead bytes 4))
  else if t == TABLE_COL_TYPE_DOUBLE then some (AvroValue.vfloat (leRead bytes 8))
  else none

/-- Decode one present column inside `process_row_event_data`: returns
the value stored into the record (none when the C code stores nothing),
the number of payload bytes consumed and the updated extra-bits count
for BIT columns. -/
def decode_column (map : TABLE_MAP) (null_bitmap ptr : List Nat)
    (i metaOff extraBits off : Nat) : Option AvroValue × Nat × Nat :=
  let t := map.column_types.getD i 0
  let md0 := map.column_metadata.getD metaOff 0
  let md1 := map.column_metadata.getD (metaOff + 1) 0
  if bit_is_set null_bitmap i then (some AvroValue.vnull, 0, extraBits)
  else if column_is_fixed_string t then
    if fixed_string_is_enum md0 then
      (some (AvroValue.venum (byteAt ptr off)), md1, extraBits)
    else
      let bytes := byteAt ptr off
      (some (AvroValue.vfix (sliceAt ptr (off + 1) bytes)), bytes + 1, extraBits)
  else if column_is_bit t then
    let width := md0 + md1 * 8
    let bits_in_nullmap := min width extraBits
    (some (AvroValue.vbits 0), (width - bits_in_nullmap) / 8, extraBits - bits_in_nullmap)
  else if column_is_variable_string t then
    let r := lestr_at ptr off
    (some (AvroValue.vvar r.1), r.2, extraBits)
  else if column_is_blob t then
    let bytes := md0
    let len := leRead (ptr.drop off) bytes
    (some (AvroValue.vbytes (sliceAt ptr (off + bytes) len)), bytes + len, extraBits)
  else if column_is_temporal t then
    let sz := temporal_field_size t md0
    (some (AvroValue.vtemporal t (sliceAt ptr off sz)), sz, extraBits)
  else
    let sz := unpack_numeric_field_size t
    (set_numeric_field_value t (sliceAt ptr off sz), sz, extraBits)

/-- Column loop of `process_row_event_data`.  `n` counts the remaining
columns (the loop runs `i` from 0 while `i < map->columns` and
`npresent < ncolumns`); fields are keyed by column index, standing in
for `create->column_names[i]`. -/
def processColsAux (map : TABLE_MAP) (columns_present null_bitmap ptr : List Nat) :
    Nat → Nat → Nat → Nat → Nat → Nat → List (Nat × AvroValue) →
    List (Nat × AvroValue) × Nat
  | 0, _, _, _, _, off, acc => (acc.reverse, off)
  | Nat.succ n, i, npresent, metaOff, extraBits, off, acc =>
      if map.columns ≤ npresent then (acc.reverse, off)
      else if bit_is_set columns_present i then
        let d := decode_column map null_bitmap ptr i metaOff extraBits off
        let acc2 := match d.1 with
          | some v => (i, v) :: acc
          | none => acc
        processColsAux map columns_present null_bitmap ptr n (i + 1) (npresent + 1)
          (metaOff + get_metadata_len (map.column_types.getD i 0)) d.2.2 (off + d.2.1) acc2
      else
        processColsAux map columns_present null_bitmap ptr n (i + 1) npresent
          metaOff extraBits off acc

/-- Model of `process_row_event_data`: read the null bitmap
(`ceil(columns/8)` bytes), then decode every column whose
`columns_present` bit is set.  Returns the field assignments in call
order and the number of payload bytes consumed (the pointer advance). -/
def process_row_event_data (map : TABLE_MAP) (create : TABLE_CREATE)
    (ptr columns_present : List Nat) : List (Nat × AvroValue) × Nat :=
  let _ := create
  let nullBytes := (map.columns + 7) / 8
  let null_bitmap := ptr.take nullBytes
  let extra_bits := ((map.columns + 7) / 8) * 8 - map.columns
  processColsAux map columns_present null_bitmap ptr map.columns 0 0 0 extra_bits nullBytes []

/-- One Avro record appended by `handle_row_event`: the common fields set
by `set_common_fields` plus the per-column assignments. -/
structure RowRecord where
  gtid : String
  timestamp : Nat
  event_type : Int
  fields : List (Nat × AvroValue)
deriving Repr, DecidableEq

/-- Row loop of `handle_row_event`: while the cursor has not reached
`event_size - BINLOG_EVENT_HDR_LEN`, decode one row image with
`col_present` and append it; for UPDATE events decode a second image -
also with `col_present`, exactly as the C code does - and append it with
`event_type = UPDATE_EVENT_AFTER`.  `fuel` bounds the iteration count
(the C loop is bounded only by the cursor position). -/
def rowLoop (map : TABLE_MAP) (create : TABLE_CREATE) (gtid : String)
    (hdr : REP_HEADER) (col_present ptr : List Nat) (payload_len : Nat) :
    Nat → Nat → List RowRecord
  | 0, _ => []
  | Nat.succ fuel, off =>
      if payload_len ≤ off then []
      else
        let event_type := get_event_type hdr.event_type
        let p1 := process_row_event_data map create (ptr.drop off) col_present
        let rec1 : RowRecord :=
          { gtid := gtid, timestamp := hdr.timestamp, event_type := event_type,
            fields := p1.1 }
        let off1 := off + p1.2
        if event_type == UPDATE_EVENT then
          let p2 := process_row_event_data map create (ptr.drop off1) col_present
          let rec2 : RowRecord :=
            { gtid := gtid, timestamp := hdr.timestamp,
              event_type := UPDATE_EVENT_AFTER, fields := p2.1 }
          rec1 :: rec2 ::
            rowLoop map create gtid hdr col_present ptr payload_len fuel (off1 + p2.2)
        else
          rec1 :: rowLoop map create gtid hdr col_present ptr payload_len fuel off1

/-- Model of `handle_row_event`.  Parses the post-header (table id of 4
or 6 bytes per the format description, flags, optional v2 extra data),
the lenenc column count, the `columns_present` bitmap and - for UPDATE
v1/v2 events - the `columns_update` bitmap, which the C code reads but
never uses.  The active map is fetched from
`active_maps[table_id % sizeof(active_maps)]`.  Returns the C result and
the records appended to the Avro writer, in order. -/
def handle_row_event (r : RouterRbr) (hdr : REP_HEADER) (ptr : List Nat) :
    Bool × List RowRecord :=
  let table_id_size := if r.event_type_hdr_lens.getD hdr.event_type 0 == 6 then 4 else 6
  let table_id := leRead ptr table_id_size
  let off1 := table_id_size
  let flags := leRead (ptr.drop off1) 2
  let off2 := off1 + 2
  if table_id == TABLE_DUMMY_ID && flags &&& ROW_EVENT_END_STATEMENT != 0 then
    (true, [])
  else
    let off3 :=
      if DELETE_ROWS_EVENTv1 < hdr.event_type then
        off2 + 2 + leRead (ptr.drop off2) 2
      else off2
    let rn := leint_at ptr off3
    let ncolumns := rn.1
    let off4 := off3 + rn.2
    let coldata_size := (ncolumns + 7) / 8
    let col_present := sliceAt ptr off4 coldata_size
    let off5 := off4 + coldata_size
    let isUpdate12 := hdr.event_type == UPDATE_ROWS_EVENTv1 ||
                      hdr.event_type == UPDATE_ROWS_EVENTv2
    let col_update := if isUpdate12 then sliceAt ptr off5 coldata_size else []
    let _ := col_update
    let off6 := if isUpdate12 then off5 + coldata_size else off5
    match r.active_maps.getD (active_maps_index table_id) none with
    | none => (false, [])
    | some map =>
        let ident := table_ident map.database map.table
        let table := hashtable_fetch r.open_tables ident
        if table.isSome && ncolumns == map.columns then
          (true, rowLoop map map.table_create r.current_gtid hdr col_present ptr
                   (hdr.event_size - BINLOG_EVENT_HDR_LEN) hdr.event_size off6)
        else (false, [])

/-! ## Conversion driver (avro_file.c, avro_read_all_events)

The driver state below models the `AVRO_INSTANCE` fields the read loop
touches.  Calls into the table-map registry, the row decoder, the DDL
store and the flush/notify/checkpoint machinery are recorded as trace
actions in the order the C code performs them; `binlog_name` string
bookkeeping is not modelled. -/

inductive DriverAction where
  | handleTableMap
  | handleRow
  | ddlCreate
  | ddlAlter
  | notifyClients
  | flushTables
  | saveState
deriving Repr, DecidableEq

inductive AvroBinlogEnd where
  | AVRO_OK
  | AVRO_LAST_FILE
  | AVRO_OPEN_TRANSACTION
  | AVRO_BINLOG_ERROR
deriving Repr, DecidableEq

structure GtidPos where
  domain : Nat
  server_id : Nat
  seq : Nat
  event_num : Nat
deriving Repr, DecidableEq

structure AVRO_INSTANCE where
  binlog_position : Nat
  current_pos : Nat
  row_count : Nat
  trx_count : Nat
  row_target : Nat
  trx_target : Nat
  gtid : GtidPos
  event_type_hdr_lens : List Nat
  event_types : Nat
deriving Repr, DecidableEq

/-- Loop-local variables of `avro_read_all_events`. -/
structure LoopVars where
  pos : Nat
  last_known_commit : Nat
  pending_transaction : Nat
  found_chksum : Bool
  rotate_seen : Bool
  stop_seen : Bool
  next_binlog : List Nat
deriving Repr, DecidableEq

/-- Model of `pread(fd, buf, count, pos)`: the bytes actually read. -/
def pread (file : List Nat) (count pos : Nat) : List Nat :=
  sliceAt file pos count

/-- Fill a `REP_HEADER` from the 19 header bytes, as the driver does with
the `EXTRACT*` macros. -/
def parse_rep_header (h : List Nat) : REP_HEADER :=
  { timestamp := leRead h 4, event_type := byteAt h 4,
    serverid := leRead (h.drop 5) 4, event_size := leRead (h.drop 9) 4,
    next_pos := leRead (h.drop 13) 4, flags := leRead (h.drop 17) 2 }

/-- Model of `read_event_data`: read `event_size - 19` bytes (computed in
uint32 arithmetic, so an `event_size` below 19 wraps around to a huge
count) at `pos + 19`; a short read yields `NULL`.  The C code also
appends a NUL terminator for QUERY_EVENT processing. -/
def read_event_data (file : List Nat) (hdr : REP_HEADER) (pos : Nat) :
    Option (List Nat) :=
  let count := (hdr.event_size + 2 ^ 32 - BINLOG_EVENT_HDR_LEN) % 2 ^ 32
  let data := pread file count (pos + BINLOG_EVENT_HDR_LEN)
  if data.length == count then some data else none

/-! ### QUERY_EVENT handling (handle_query_event) -/

def DBNM_OFF : Nat := 8
def VBLK_OFF : Nat := 11
def PHDR_OFF : Nat := 13

/-- Model of `unify_whitespace`: every whitespace byte becomes a space. -/
def unify_whitespace (sql : List Nat) : List Nat :=
  sql.map (fun b => if b == 0x20 || (0x09 ≤ b && b ≤ 0x0d) then 0x20 else b)

/-- Drop bytes up to and including a closing C-style comment marker. -/
def dropUntilCloseAux : Nat → List Nat → List Nat
  | 0, bs => bs
  | _, [] => []
  | fuel + 1, b :: rest =>
      if b == 0x2a && rest.headD 0 == 0x2f then rest.tail
      else dropUntilCloseAux fuel rest

/-- Modelled from the spec: `remove_mysql_comments` (mysql_utils, outside
the analysed sources) strips comments of the forms slash-star ... star-slash
and double-dash to the end of the statement. -/
def remove_mysql_commentsAux : Nat → List Nat → List Nat
  | 0, bs => bs
  | fuel + 1, bs =>
      match bs with
      | [] => []
      | b :: rest =>
          if b == 0x2f && rest.headD 0 == 0x2a then
            remove_mysql_commentsAux fuel (dropUntilCloseAux (rest.length + 1) rest.tail)
          else if b == 0x2d && rest.headD 0 == 0x2d then []
          else b :: remove_mysql_commentsAux fuel rest

def remove_mysql_comments (sql : List Nat) : List Nat :=
  remove_mysql_commentsAux (sql.length + 1) sql

/-- Lower-case an ASCII byte. -/
def lowerByte (b : Nat) : Nat :=
  if 0x41 ≤ b && b ≤ 0x5a then b + 0x20 else b

/-- Match a (lower-case) keyword case-insensitively at the head of the
buffer, returning the rest on success. -/
def matchCI : List Nat → List Nat → Option (List Nat)
  | [], bs => some bs
  | _ :: _, [] => none
  | p :: ps, b :: bs => if lowerByte b == p then matchCI ps bs else none

/-- Skip spaces (whitespace has been unified to plain spaces). -/
def skipSpacesL (bs : List Nat) : List Nat :=
  bs.dropWhile (fun b => b == 0x20)

/-- Require at least one space, then skip the run of spaces. -/
def skipSpaces1 (bs : List Nat) : Option (List Nat) :=
  match bs with
  | b :: rest => if b == 0x20 then some (skipSpacesL rest) else none
  | [] => none

/-- Match a sequence of keywords separated by runs of spaces. -/
def matchSeqCI : List (List Nat) → List Nat → Bool
  | [], _ => true
  | w :: ws, bs =>
      match matchCI w bs with
      | none => false
      | some r =>
          match ws with
          | [] => true
          | _ :: _ =>
              match skipSpaces1 r with
              | none => false
              | some r2 => matchSeqCI ws r2

def kwCreate : List Nat := [0x63, 0x72, 0x65, 0x61, 0x74, 0x65]
def kwOr : List Nat := [0x6f, 0x72]
def kwReplace : List Nat := [0x72, 0x65, 0x70, 0x6c, 0x61, 0x63, 0x65]
def kwTemporary : List Nat := [0x74, 0x65, 0x6d, 0x70, 0x6f, 0x72, 0x61, 0x72, 0x79]
def kwTable : List Nat := [0x74, 0x61, 0x62, 0x6c, 0x65]
def kwAlter : List Nat := [0x61, 0x6c, 0x74, 0x65, 0x72]
def kwOnline : List Nat := [0x6f, 0x6e, 0x6c, 0x69, 0x6e, 0x65]
def kwIgnore : List Nat := [0x69, 0x67, 0x6e, 0x6f, 0x72, 0x65]
def kwBEGIN : List Nat := [0x42, 0x45, 0x47, 0x49, 0x4e]
def kwCOMMIT : List Nat := [0x43, 0x4f, 0x4d, 0x4d, 0x49, 0x54]

/-- Modelled from the spec: the anchored case-insensitive recognition
regex for CREATE TABLE statements (pcre2, compiled outside the analysed
sources). -/
def is_create_table_statement (sql : List Nat) : Bool :=
  let s := skipSpacesL sql
  match matchCI kwCreate s with
  | none => false
  | some r1 =>
      match skipSpaces1 r1 with
      | none => false
      | some r2 =>
          matchSeqCI [kwTable] r2 ||
          matchSeqCI [kwOr, kwReplace, kwTable] r2 ||
          matchSeqCI [kwTemporary, kwTable] r2 ||
          matchSeqCI [kwOr, kwReplace, kwTemporary, kwTable] r2

/-- Modelled from the spec: the anchored case-insensitive recognition
regex for ALTER TABLE statements. -/
def is_alter_table_statement (sql : List Nat) : Bool :=
  let s := skipSpacesL sql
  match matchCI kwAlter s with
  | none => false
  | some r1 =>
      match skipSpaces1 r1 with
      | none => false
      | some r2 =>
          matchSeqCI [kwTable] r2 ||
          matchSeqCI [kwOnline, kwTable] r2 ||
          matchSeqCI [kwIgnore, kwTable] r2 ||
          matchSeqCI [kwOnline, kwIgnore, kwTable] r2

/-- Model of `handle_query_event`: extract the SQL text using the
QUERY_EVENT post-header offsets, unify whitespace, strip comments, then
recognise CREATE / ALTER / BEGIN / COMMIT.  Returns the updated pending
transaction flag and the DDL actions performed. -/
def handle_query_event (hdr : REP_HEADER) (ptr : List Nat)
    (pending_transaction : Nat) : Nat × List DriverAction :=
  let dblen := byteAt ptr DBNM_OFF
  let vblklen := byteAt ptr VBLK_OFF
  let len := hdr.event_size - BINLOG_EVENT_HDR_LEN - (PHDR_OFF + vblklen + 1 + dblen) + 1
  let sql0 := sliceAt ptr (PHDR_OFF + vblklen + 1 + dblen) len
  let sql := remove_mysql_comments (unify_whitespace sql0)
  if is_create_table_statement sql then (pending_transaction, [DriverAction.ddlCreate])
  else if is_alter_table_statement sql then (pending_transaction, [DriverAction.ddlAlter])
  else if sql.take 5 == kwBEGIN then (1, [])
  else if sql.take 6 == kwCOMMIT then (0, [])
  else (pending_transaction, [])

/-! ### Event dispatch and the read loop -/

/-- Dispatch one framed event, mirroring the if/else chain of
`avro_read_all_events`.  Returns the updated instance state, updated
loop variables and the actions performed. -/
def dispatch_event (st : AVRO_INSTANCE) (hdr : REP_HEADER) (ptr : List Nat)
    (v : LoopVars) : AVRO_INSTANCE × LoopVars × List DriverAction :=
  if hdr.event_type == FORMAT_DESCRIPTION_EVENT then
    let event_header_length := byteAt ptr (2 + 50 + 4)
    let ntypes := hdr.event_size - event_header_length - (2 + 50 + 4 + 1)
    let st2 := { st with
      event_type_hdr_lens := sliceAt ptr (2 + 50 + 5) ntypes,
      event_types := ntypes }
    let adjusted :=
      if ntypes == 168 then ntypes - 163
      else if ntypes == 165 then ntypes - 160
      else ntypes - 35
    let n_events := hdr.event_size - event_header_length - (2 + 50 + 4 + 1)
    let v2 :=
      if adjusted < n_events then
        if byteAt ptr (hdr.event_size - event_header_length - adjusted) == 1 then
          { v with found_chksum := true }
        else v
      else v
    (st2, v2, [])
  else if hdr.event_type == STOP_EVENT then
    (st, { v with stop_seen := true }, [])
  else if hdr.event_type == TABLE_MAP_EVENT then
    (st, v, [DriverAction.handleTableMap])
  else if (WRITE_ROWS_EVENTv0 ≤ hdr.event_type && hdr.event_type ≤ DELETE_ROWS_EVENTv1) ||
          (WRITE_ROWS_EVENTv2 ≤ hdr.event_type && hdr.event_type ≤ DELETE_ROWS_EVENTv2) then
    ({ st with row_count := st.row_count + 1 }, v, [DriverAction.handleRow])
  else if hdr.event_type == ROTATE_EVENT then
    let len0 := hdr.event_size - BINLOG_EVENT_HDR_LEN - 8
    let len1 := if v.found_chksum then len0 - 4 else len0
    let len2 := if 255 < len1 then 255 else len1
    (st, { v with next_binlog := sliceAt ptr 8 len2, rotate_seen := true }, [])
  else if hdr.event_type == MARIADB10_GTID_EVENT then
    let n_sequence := leRead ptr 8
    let domainid := leRead (ptr.drop 8) 4
    let gflags := byteAt ptr (8 + 4)
    let st2 := { st with gtid :=
      { domain := domainid, server_id := hdr.serverid, seq := n_sequence, event_num := 1 } }
    if gflags == 0 then (st2, { v with pending_transaction := 1 }, [])
    else (st2, v, [])
  else if hdr.event_type == QUERY_EVENT then
    let q := handle_query_event hdr ptr v.pending_transaction
    let st2 := if q.1 != v.pending_transaction
               then { st with trx_count := st.trx_count + 1 } else st
    (st2, { v with pending_transaction := q.1 }, q.2)
  else if hdr.event_type == XID_EVENT then
    let st2 := { st with trx_count := st.trx_count + 1 }
    let v2 := { v with pending_transaction := 0 }
    if st2.row_target ≤ st2.row_count || st2.trx_target ≤ st2.trx_count then
      ({ st2 with row_count := 0, trx_count := 0 }, v2,
       [DriverAction.notifyClients, DriverAction.flushTables, DriverAction.saveState])
    else (st2, v2, [])
  else (st, v, [])

/-- Result of one iteration of the read loop. -/
inductive StepOut where
  | ret (res : AvroBinlogEnd) (st : AVRO_INSTANCE) (acts : List DriverAction)
  | brk (st : AVRO_INSTANCE) (acts : List DriverAction)
  | cont (st : AVRO_INSTANCE) (v : LoopVars) (acts : List DriverAction)
deriving Repr, DecidableEq

/-- One iteration of `avro_read_all_events`: frame the header, validate
the event type and size, fetch the payload, dispatch, then apply the
`next_pos` sanity checks.  `next_file_exists` models
`binlog_next_file_exists` for the end-of-file path. -/
def avro_read_step (file : List Nat) (next_file_exists : Bool)
    (st : AVRO_INSTANCE) (v : LoopVars) : StepOut :=
  let hd := pread file BINLOG_EVENT_HDR_LEN v.pos
  if hd.length != BINLOG_EVENT_HDR_LEN then
    let st1 := { st with current_pos := v.pos }
    if 0 < v.pending_transaction then .ret .AVRO_OPEN_TRANSACTION st1 []
    else if hd.length != 0 then .ret .AVRO_BINLOG_ERROR st1 []
    else if v.rotate_seen then
      .ret .AVRO_OK { st1 with binlog_position := 4, current_pos := 4 } []
    else if next_file_exists then
      .ret .AVRO_OK { st1 with binlog_position := 4, current_pos := 4 } []
    else .ret .AVRO_LAST_FILE st1 []
  else
    let hdr := parse_rep_header hd
    if MAX_EVENT_TYPE_MARIADB10 < hdr.event_type then
      .ret .AVRO_BINLOG_ERROR
        { st with binlog_position := v.last_known_commit, current_pos := v.pos } []
    else if hdr.event_size == 0 then
      .ret .AVRO_BINLOG_ERROR
        { st with binlog_position := v.last_known_commit, current_pos := v.pos } []
    else
      match read_event_data file hdr v.pos with
      | none =>
          .ret .AVRO_BINLOG_ERROR
            { st with binlog_position := v.last_known_commit, current_pos := v.pos } []
      | some ptr =>
          let v1 := if v.pending_transaction == 0
                    then { v with last_known_commit := v.pos } else v
          let d := dispatch_event st hdr ptr v1
          let st2 := d.1
          let v2 := d.2.1
          let acts := d.2.2
          if 0 < hdr.next_pos && hdr.next_pos < v.pos then .brk st2 acts
          else if 0 < hdr.next_pos && hdr.next_pos != v.pos + hdr.event_size then
            .brk st2 acts
          else if 0 < hdr.next_pos then
            .cont { st2 with current_pos := hdr.next_pos }
              { v2 with pos := hdr.next_pos } acts
          else .brk st2 acts

/-- The driver loop: iterate `avro_read_step` until it returns or breaks;
a break returns `AVRO_BINLOG_ERROR` as the fall-through at the end of
the C function does.  `fuel` bounds the iteration count. -/
def avro_read_loop (file : List Nat) (next_file_exists : Bool) :
    Nat → AVRO_INSTANCE → LoopVars → AvroBinlogEnd × AVRO_INSTANCE × List DriverAction
  | 0, st, _ => (.AVRO_BINLOG_ERROR, st, [])
  | Nat.succ fuel, st, v =>
      match avro_read_step file next_file_exists st v with
      | .ret res st2 acts => (res, st2, acts)
      | .brk st2 acts => (.AVRO_BINLOG_ERROR, st2, acts)
      | .cont st2 v2 acts =>
          let r := avro_read_loop file next_file_exists fuel st2 v2
          (r.1, r.2.1, acts ++ r.2.2)

/-- Model of `avro_read_all_events`: start at `router->current_pos` with
`last_known_commit = 4` and no pending transaction. -/
def avro_read_all_events (file : List Nat) (next_file_exists : Bool)
    (st : AVRO_INSTANCE) (fuel : Nat) :
    AvroBinlogEnd × AVRO_INSTANCE × List DriverAction :=
  avro_read_loop file next_file_exists fuel st
    { pos := st.current_pos, last_known_commit := 4, pending_transaction := 0,
      found_chksum := false, rotate_seen := false, stop_seen := false,
      next_binlog := [] }

/-- The flush-related subset of a driver trace, for stating in which
order the driver flushes, notifies and checkpoints. -/
def flushTrace (acts : List DriverAction) : List DriverAction :=
  acts.filter (fun a =>
    a == DriverAction.notifyClients || a == DriverAction.flushTables ||
    a == DriverAction.saveState)

/-! ## CDC client registration (avro_client.c) -/

def CDC_UUID_LEN : Nat := 36

def AVRO_CLIENT_UNREGISTERED : Nat := 0x0000
def AVRO_CLIENT_REGISTERED : Nat := 0x0001
def AVRO_CLIENT_REQUEST_DATA : Nat := 0x0002
def AVRO_CLIENT_ERRORED : Nat := 0x0003

inductive AvroFormat where
  | AVRO
  | JSON
deriving Repr, DecidableEq

/-- Model of `strstr`: index of the first occurrence of `pat` in `hay`. -/
def strFind : List Char → List Char → Option Nat
  | hay, pat =>
      if pat.isPrefixOf hay then some 0
      else
        match hay with
        | [] => none
        | _ :: t => (strFind t pat).map (fun i => i + 1)

/-- Result of `avro_client_do_registration`: the C return value, the
UUID stored into the client and the format selected. -/
structure RegResult where
  ret : Nat
  uuid : List Char
  format : Option AvroFormat
deriving Repr, DecidableEq

/-- Model of `avro_client_do_registration`.  `data_len` is
`GWBUF_LENGTH - strlen("REGISTER UUID=")` as a C `int`; the UUID is the
following at most 36 bytes, truncated at the first comma or space
(the `strchr` from the string terminator can never match and is dead
code); the TYPE keyword is searched from offset
`sizeof(reg_uuid) + uuid_len` = `15 + strlen(uuid)` and must be
followed by `AVRO` or `JSON` for the registration to succeed. -/
def avro_client_do_registration (request : List Char) : RegResult :=
  let reg_uuid := "REGISTER UUID=".toList
  let reg_uuid_len := reg_uuid.length
  let data_len : Int := (request.length : Int) - (reg_uuid_len : Int)
  match strFind request reg_uuid with
  | none => { ret := 0, uuid := [], format := none }
  | some _ =>
      let uuid_len : Int :=
        if (CDC_UUID_LEN : Int) < data_len then (CDC_UUID_LEN : Int) else data_len
      let uuid1 := (request.drop reg_uuid_len).take uuid_len.toNat
      let uuid2 := uuid1.takeWhile (fun c => c != ',')
      let uuid3 := uuid2.takeWhile (fun c => c != ' ')
      let data_len2 :=
        if (uuid3.length : Int) < uuid_len
        then data_len - (uuid_len - (uuid3.length : Int)) else data_len
      let uuid_len2 := uuid3.length
      if 0 < data_len2 then
        let tail := request.drop (reg_uuid_len + 1 + uuid_len2)
        match strFind tail "TYPE=".toList with
        | some i =>
            let t := (tail.drop (i + 5)).take 4
            if t == "AVRO".toList then
              { ret := 1, uuid := uuid3, format := some AvroFormat.AVRO }
            else if t == "JSON".toList then
              { ret := 1, uuid := uuid3, format := some AvroFormat.JSON }
            else { ret := 0, uuid := uuid3, format := none }
        | none => { ret := 0, uuid := uuid3, format := none }
      else { ret := 0, uuid := uuid3, format := none }

/-- Result of handling a request in the `AVRO_CLIENT_UNREGISTERED`
state: the new session state, the bytes written back to the client and
whether the DCB was closed. -/
structure HandleResult where
  state : Nat
  reply : List Char
  closed : Bool
deriving Repr, DecidableEq

/-- Model of the `AVRO_CLIENT_UNREGISTERED` arm of
`avro_client_handle_request`: on a failed registration the session is
errored, the literal error line is written and the connection closed;
on success the server writes `OK` and the session becomes registered. -/
def avro_client_handle_registration (request : List Char) : HandleResult :=
  let reg := avro_client_do_registration request
  if reg.ret == 0 then
    { state := AVRO_CLIENT_ERRORED,
      reply := "ERR, code 12, msg: Registration failed".toList, closed := true }
  else
    { state := AVRO_CLIENT_REGISTERED, reply := "OK".toList, closed := false }

/-! ## Predicates and concrete fixtures used by the verification theorems -/

/-- Records come in before/after pairs: an `UPDATE_EVENT` record
immediately followed by an `UPDATE_EVENT_AFTER` record. -/
def isUpdatePairs : List RowRecord → Bool
  | [] => true
  | r1 :: r2 :: rest =>
      r1.event_type == UPDATE_EVENT && r2.event_type == UPDATE_EVENT_AFTER &&
      isUpdatePairs rest
  | _ :: [] => false

/-- Little-endian 2-byte rendering of a value. -/
def le2 (n : Nat) : List Nat := [n % 256, n / 256 % 256]

/-- Little-endian 4-byte rendering of a value. -/
def le4 (n : Nat) : List Nat :=
  [n % 256, n / 256 % 256, n / 2 ^ 16 % 256, n / 2 ^ 24 % 256]

/-- Build the 19 bytes of a binlog event header (server id fixed to 1). -/
def mkEventHeader (ts etype size nextp flags : Nat) : List Nat :=
  le4 ts ++ [etype] ++ le4 1 ++ le4 size ++ le4 nextp ++ le2 flags

/-- Fixture (C1): a router that knows `db.t` but has no map yet; all
1024 active slots are empty. -/
def router1 : RouterRbr :=
  { event_type_hdr_lens := [],
    active_maps := List.replicate 1024 none,
    table_maps := [], open_tables := [],
    created_tables := [("db.t", { columns := 1, version := 1 })],
    current_gtid := "0-1-1" }

/-- Fixture (C1): a TABLE_MAP_EVENT for `db.t` carrying table id 1024. -/
def tme1 : TableMapEventData :=
  { id := 1024, database := "db", table := "t", columns := 1,
    column_types := [TABLE_COL_TYPE_TINY], column_metadata := [] }

/-- Fixture (C2/C3): a one-column TINY table mapped at id 42. -/
def map2 : TABLE_MAP :=
  { id := 42, columns := 1, column_types := [TABLE_COL_TYPE_TINY],
    column_metadata := [], table_create := { columns := 1, version := 1 },
    version := 1, database := "d", table := "t" }

/-- Fixture (C2): router with `map2` published at its active slot. -/
def router2 : RouterRbr :=
  { event_type_hdr_lens := [],
    active_maps := (List.replicate 1024 (none : Option TABLE_MAP)).set 42 (some map2),
    table_maps := [("d.t", map2)],
    open_tables := [("d.t", { filename := "d.t" })],
    created_tables := [("d.t", { columns := 1, version := 1 })],
    current_gtid := "0-1-5" }

/-- Fixture (C2): WRITE_ROWS_EVENTv1 payload for table id 42 holding one
row `(a = 10)` followed by a 4-byte CRC32 `00 AA BB CC`: 6-byte table
id, 2 flag bytes, lenenc column count 1, `columns_present = 0x01`, the
row image (null bitmap `0x00`, TINY value 10), then the checksum. -/
def ptr2crc : List Nat :=
  [42, 0, 0, 0, 0, 0] ++ [0, 0] ++ [1] ++ [1] ++ [0, 10] ++ [0, 0xAA, 0xBB, 0xCC]

/-- Fixture (C2): header for `ptr2crc` (19 + 16 payload bytes). -/
def hdr2crc : REP_HEADER :=
  { timestamp := 1000, event_type := WRITE_ROWS_EVENTv1, serverid := 1,
    event_size := 35, next_pos := 0, flags := 0 }

/-- Fixture (C2): the same event without the trailing checksum. -/
def ptr2nocrc : List Nat :=
  [42, 0, 0, 0, 0, 0] ++ [0, 0] ++ [1] ++ [1] ++ [0, 10]

/-- Fixture (C2): header for `ptr2nocrc` (19 + 12 payload bytes). -/
def hdr2nocrc : REP_HEADER :=
  { timestamp := 1000, event_type := WRITE_ROWS_EVENTv1, serverid := 1,
    event_size := 31, next_pos := 0, flags := 0 }

/-- Fixture (C2): the framed event `hdr2crc / ptr2crc` as file bytes. -/
def file2 : List Nat :=
  mkEventHeader 1000 WRITE_ROWS_EVENTv1 35 0 0 ++ ptr2crc

/-- Fixture (C2): canonical MariaDB 10 format-description payload with a
19-byte header length, 163 per-type lengths, checksum algorithm byte 1
(CRC32) and a 4-byte checksum; 225 bytes, event size 244. -/
def ptrFDE : List Nat :=
  [4, 0] ++ List.replicate 50 0x35 ++ [0, 0, 0, 0] ++ [19] ++
  List.replicate 163 0 ++ [1] ++ [0, 0, 0, 0]

/-- Fixture (C2): header of the format-description event. -/
def hdrFDE : REP_HEADER :=
  { timestamp := 0, event_type := FORMAT_DESCRIPTION_EVENT, serverid := 1,
    event_size := 244, next_pos := 0, flags := 0 }

/-- Fixture: driver state with default thresholds. -/
def stDefault : AVRO_INSTANCE :=
  { binlog_position := 4, current_pos := 4, row_count := 0, trx_count := 0,
    row_target := 1000, trx_target := 50,
    gtid := { domain := 0, server_id := 0, seq := 0, event_num := 0 },
    event_type_hdr_lens := [], event_types := 0 }

/-- Fixture: loop variables at the start of `avro_read_all_events`. -/
def vInit : LoopVars :=
  { pos := 4, last_known_commit := 4, pending_transaction := 0,
    found_chksum := false, rotate_seen := false, stop_seen := false,
    next_binlog := [] }

/-- Fixture (C3/C8): a two-column TINY table mapped at id 7. -/
def map3 : TABLE_MAP :=
  { id := 7, columns := 2,
    column_types := [TABLE_COL_TYPE_TINY, TABLE_COL_TYPE_TINY],
    column_metadata := [], table_create := { columns := 2, version := 1 },
    version := 1, database := "d", table := "u" }

/-- Fixture (C3/C8): router with `map3` published at its active slot. -/
def router3 : RouterRbr :=
  { event_type_hdr_lens := [],
    active_maps := (List.replicate 1024 (none : Option TABLE_MAP)).set 7 (some map3),
    table_maps := [("d.u", map3)],
    open_tables := [("d.u", { filename := "d.u" })],
    created_tables := [("d.u", { columns := 2, version := 1 })],
    current_gtid := "0-1-6" }

/-- Fixture (C3/C8): UPDATE_ROWS_EVENTv1 payload for table id 7:
`columns_present = 0x03` (both columns in the before image),
`columns_update = 0x01` (only column 0 in the after image), before image
`(5, 6)`, after image `(9)` - 2 bytes, as the update bitmap dictates. -/
def ptr3 : List Nat :=
  [7, 0, 0, 0, 0, 0] ++ [0, 0] ++ [2] ++ [3] ++ [1] ++ [0, 5, 6] ++ [0, 9]

/-- Fixture (C3/C8): header for `ptr3` (19 + 16 payload bytes). -/
def hdr3 : REP_HEADER :=
  { timestamp := 2000, event_type := UPDATE_ROWS_EVENTv1, serverid := 1,
    event_size := 35, next_pos := 0, flags := 0 }

/-- Fixture (C4): a binlog file with two XID events; the second declares
`next_pos = 63` although it ends at 58. -/
def file4 : List Nat :=
  [0xfe, 0x62, 0x69, 0x6e] ++
  mkEventHeader 10 XID_EVENT 27 31 0 ++ List.replicate 8 0 ++
  mkEventHeader 11 XID_EVENT 27 63 0 ++ List.replicate 8 0

/-- Fixture (C4): driver state whose thresholds are never reached. -/
def st4 : AVRO_INSTANCE :=
  { stDefault with trx_target := 100 }

/-- Fixture (C7): a binlog file with a MariaDB GTID event (flags 0, so a
transaction opens) followed by the committing XID event. -/
def file7 : List Nat :=
  [0xfe, 0x62, 0x69, 0x6e] ++
  mkEventHeader 1 MARIADB10_GTID_EVENT 32 36 0 ++
  ([5, 0, 0, 0, 0, 0, 0, 0] ++ [0, 0, 0, 0] ++ [0]) ++
  mkEventHeader 2 XID_EVENT 27 63 0 ++ List.replicate 8 0

/-- Fixture (C7): the same transaction committed by a QUERY_EVENT whose
statement is `COMMIT` (a non-transactional engine commit): 13 post-header
bytes with `db_name_len = 2`, no status block, the database name `db`
and its NUL, then the SQL text. -/
def file7b : List Nat :=
  [0xfe, 0x62, 0x69, 0x6e] ++
  mkEventHeader 1 MARIADB10_GTID_EVENT 32 36 0 ++
  ([5, 0, 0, 0, 0, 0, 0, 0] ++ [0, 0, 0, 0] ++ [0]) ++
  mkEventHeader 2 QUERY_EVENT 41 77 0 ++
  ([0, 0, 0, 0, 0, 0, 0, 0, 2, 0, 0, 0, 0] ++ [0x64, 0x62] ++ [0] ++
   [0x43, 0x4f, 0x4d, 0x4d, 0x49, 0x54])

/-- Fixture (C7): flush after every transaction. -/
def st7 : AVRO_INSTANCE :=
  { stDefault with trx_target := 1 }

/-! ## Theorems -/

set_option maxRecDepth 100000

/-- Take the first `xs.length` elements of `xs ++ ys`. -/
theorem take_len_append (xs ys : List Nat) : (xs ++ ys).take xs.length = xs :=
  List.take_left xs ys

/-- C5: if any partial write fails during Avro datablock finalization
(record count, data size, payload bytes, or sync marker), the file is
truncated back to the position it held before finalization started:
its contents - hence also its size - equal those prior to finalization,
so the file never contains a partial block. -/
theorem C5_finalize_failure_restores_file (f : MAXAVRO_FILE)
    (block : MAXAVRO_DATABLOCK) (o1 o2 o3 o4 : WriteOutcome)
    (h : (maxavro_datablock_finalize f block o1 o2 o3 o4).2.2 = false) :
    (maxavro_datablock_finalize f block o1 o2 o3 o4).1.contents = f.contents := by
  obtain ⟨ok1, w1⟩ := o1
  obtain ⟨ok2, w2⟩ := o2
  obtain ⟨ok3, w3⟩ := o3
  obtain ⟨ok4, w4⟩ := o4
  cases ok1 <;> cases ok2 <;> cases ok3 <;> cases ok4 <;>
    simp_all [maxavro_datablock_finalize, applyWrite, List.append_assoc,
      take_len_append]

/-- Witness for C5: a concrete finalization whose first write fails
leaves the 3-byte file unchanged. -/
theorem C5_witness :
    (maxavro_datablock_finalize { contents := [1, 2, 3], sync := List.replicate 16 0 }
        { buffersize := 16, datasize := 5, records := 1, buffer := [9, 8, 7, 6, 5] }
        ⟨false, 1⟩ ⟨true, 0⟩ ⟨true, 0⟩ ⟨true, 0⟩).2.2 = false ∧
    (maxavro_datablock_finalize { contents := [1, 2, 3], sync := List.replicate 16 0 }
        { buffersize := 16, datasize := 5, records := 1, buffer := [9, 8, 7, 6, 5] }
        ⟨false, 1⟩ ⟨true, 0⟩ ⟨true, 0⟩ ⟨true, 0⟩).1.contents = [1, 2, 3] :=
  ⟨by decide, C5_finalize_failure_restores_file _ _ _ _ _ _ (by decide)⟩

/-- C6: the claim says a successful finalization resets the block to
`records = 0` and `datasize = 0`.  Evaluating the code on a block with
5 payload bytes shows the success path instead zeroes `buffersize`
and leaves `datasize` at 5, so the next finalization would re-write the
old payload - the reset in the source assigns `buffersize = 0` where its
own comment promises a reset of the datablock for a new write. -/
theorem C6_finalize_success_leaves_datasize :
    (maxavro_datablock_finalize { contents := [1, 2, 3], sync := List.replicate 16 0 }
        { buffersize := 16, datasize := 5, records := 1, buffer := [9, 8, 7, 6, 5] }
        ⟨true, 0⟩ ⟨true, 0⟩ ⟨true, 0⟩ ⟨true, 0⟩).2.2 = true ∧
    (maxavro_datablock_finalize { contents := [1, 2, 3], sync := List.replicate 16 0 }
        { buffersize := 16, datasize := 5, records := 1, buffer := [9, 8, 7, 6, 5] }
        ⟨true, 0⟩ ⟨true, 0⟩ ⟨true, 0⟩ ⟨true, 0⟩).2.1 =
      { buffersize := 0, datasize := 5, records := 0, buffer := [9, 8, 7, 6, 5] } := by
  decide

/-- C10: `maxavro_datablock_add_string` grows the buffer by doubling at
most once, so a string whose encoding exceeds twice the current capacity
is appended beyond the allocated buffer: the call returns success with
`datasize = 11` against `buffersize = 4`, violating the claimed
invariant `datasize <= buffersize`. -/
theorem C10_add_string_overflows_buffer :
    ∃ b : MAXAVRO_DATABLOCK,
      maxavro_datablock_add_string true
          { buffersize := 2, datasize := 0, records := 0, buffer := [] }
          (List.replicate 10 65) = some b ∧
      b.buffersize < b.datasize ∧ b.buffersize = 4 ∧ b.datasize = 11 := by
  refine ⟨{ buffersize := 4, datasize := 11, records := 0,
            buffer := 20 :: List.replicate 10 65 }, ?_, by decide, rfl, rfl⟩
  decide

/-- C1: the claim says a new TableMap with id I is published at slot
`I % MAX_MAPPED_TABLES` (1024) and looked up there by row events.  The
code indexes with `id % sizeof(router->active_maps)`, and the byte size
of the 1024-pointer array is 8192, so for table id 1024 the computed
slot is 1024 - one past the end of the array (an out-of-bounds write in
C, a no-op in the model) - while the claimed slot is 1024 % 1024 = 0:
after a successful `handle_table_map_event` no slot of the array holds
the new map, and in particular slot 0 is still empty. -/
theorem C1_table_map_published_outside_array :
    (handle_table_map_event router1 tme1).2 = true ∧
    active_maps_index tme1.id = 1024 ∧
    MAX_MAPPED_TABLES ≤ active_maps_index tme1.id ∧
    tme1.id % MAX_MAPPED_TABLES = 0 ∧
    (handle_table_map_event router1 tme1).1.active_maps = List.replicate 1024 none := by
  decide

/-- C2: the format-description event does set `found_chksum` when the
byte past the length table is 1, and the driver then hands every
handler a payload of `event_size - 19` bytes with no 4-byte reduction;
`handle_row_event` iterates until that full length, so the concrete
one-row WRITE_ROWS event followed by a CRC32 yields 4 records (the
checksum bytes are decoded as further row images) where the same event
without the checksum yields exactly 1. -/
theorem C2_row_decoder_consumes_checksum_bytes :
    (dispatch_event stDefault hdrFDE ptrFDE vInit).2.1.found_chksum = true ∧
    read_event_data file2 (parse_rep_header (pread file2 BINLOG_EVENT_HDR_LEN 0)) 0 =
      some ptr2crc ∧
    (handle_row_event router2 hdr2crc ptr2crc).2.length = 4 ∧
    (handle_row_event router2 hdr2nocrc ptr2nocrc).2.length = 1 := by
  decide

/-- C3: the claim says the after image of an UPDATE row is decoded with
the `columns_update` bitmap.  On the concrete update event whose
`columns_present = 0x03` and `columns_update = 0x01`, the code decodes
the after image with `columns_present`: the second record carries an
assignment to column 1 (whose `columns_update` bit is clear) and the
decoder consumed 3 bytes for the 2-byte after image, reading past the
row. -/
theorem C3_after_image_uses_columns_present :
    (handle_row_event router3 hdr3 ptr3).2 =
      [{ gtid := "0-1-6", timestamp := 2000, event_type := UPDATE_EVENT,
         fields := [(0, AvroValue.vint 5), (1, AvroValue.vint 6)] },
       { gtid := "0-1-6", timestamp := 2000, event_type := UPDATE_EVENT_AFTER,
         fields := [(0, AvroValue.vint 9), (1, AvroValue.vint 0)] }] ∧
    bit_is_set [0x01] 1 = false := by
  decide

/-- Every chunk emitted by the row loop of an UPDATE event is a
before-image record followed by an after-image record. -/
theorem rowLoop_update_pairs (map : TABLE_MAP) (create : TABLE_CREATE)
    (gtid : String) (hdr : REP_HEADER) (cp ptr : List Nat) (plen : Nat)
    (h : get_event_type hdr.event_type = UPDATE_EVENT) :
    ∀ fuel off, isUpdatePairs (rowLoop map create gtid hdr cp ptr plen fuel off) = true := by
  intro fuel
  induction fuel with
  | zero => intro off; rfl
  | succ n ih =>
      intro off
      unfold rowLoop
      split
      · rfl
      · simp only [h, beq_self_eq_true, if_true]
        simp [isUpdatePairs, ih]

/-- C8: for every UPDATE row event, the records `handle_row_event`
appends come in consecutive pairs: the before image first with
`event_type = UPDATE_EVENT`, then the after image with
`event_type = UPDATE_EVENT_AFTER` - two records per row, in that
order. -/
theorem C8_update_rows_written_as_before_after_pairs (r : RouterRbr)
    (hdr : REP_HEADER) (ptr : List Nat)
    (h : get_event_type hdr.event_type = UPDATE_EVENT) :
    isUpdatePairs (handle_row_event r hdr ptr).2 = true := by
  unfold handle_row_event
  dsimp only
  repeat' split
  all_goals
    first
      | rfl
      | exact rowLoop_update_pairs _ _ _ _ _ _ _ h _ _

/-- Witness for C8: the concrete two-column update event produces a
paired record list. -/
theorem C8_witness : isUpdatePairs (handle_row_event router3 hdr3 ptr3).2 = true :=
  C8_update_rows_written_as_before_after_pairs router3 hdr3 ptr3 (by decide)

/-- Event dispatch never touches the safe checkpoint position. -/
theorem dispatch_event_binlog_position (st : AVRO_INSTANCE) (hdr : REP_HEADER)
    (ptr : List Nat) (v : LoopVars) :
    (dispatch_event st hdr ptr v).1.binlog_position = st.binlog_position := by
  unfold dispatch_event
  dsimp only
  by_cases c1 : (hdr.event_type == FORMAT_DESCRIPTION_EVENT) = true
  · rw [if_pos c1]
  rw [if_neg c1]
  by_cases c2 : (hdr.event_type == STOP_EVENT) = true
  · rw [if_pos c2]
  rw [if_neg c2]
  by_cases c3 : (hdr.event_type == TABLE_MAP_EVENT) = true
  · rw [if_pos c3]
  rw [if_neg c3]
  by_cases c4 : (decide (WRITE_ROWS_EVENTv0 ≤ hdr.event_type) &&
      decide (hdr.event_type ≤ DELETE_ROWS_EVENTv1) ||
      decide (WRITE_ROWS_EVENTv2 ≤ hdr.event_type) &&
      decide (hdr.event_type ≤ DELETE_ROWS_EVENTv2)) = true
  · rw [if_pos c4]
  rw [if_neg c4]
  by_cases c5 : (hdr.event_type == ROTATE_EVENT) = true
  · rw [if_pos c5]
  rw [if_neg c5]
  by_cases c6 : (hdr.event_type == MARIADB10_GTID_EVENT) = true
  · rw [if_pos c6]
    by_cases c6b : (byteAt ptr (8 + 4) == 0) = true
    · rw [if_pos c6b]
    · rw [if_neg c6b]
  rw [if_neg c6]
  by_cases c7 : (hdr.event_type == QUERY_EVENT) = true
  · rw [if_pos c7]
    by_cases c7b :
        ((handle_query_event hdr ptr v.pending_transaction).1 != v.pending_transaction) = true
    · rw [if_pos c7b]
    · rw [if_neg c7b]
  rw [if_neg c7]
  by_cases c8 : (hdr.event_type == XID_EVENT) = true
  · rw [if_pos c8]
    by_cases c8b : (decide (st.row_target ≤ st.row_count) ||
        decide (st.trx_target ≤ st.trx_count + 1)) = true
    · rw [if_pos c8b]
    · rw [if_neg c8b]
  rw [if_neg c8]

/-- C4: what the framer actually validates, and what it does on each
violation.  With a full 19-byte header: an event type above 0xa3 or an
event size of zero returns the binlog error with
`binlog_position = last_known_commit`; a failed payload read (which is
how 1 <= event_size < 19 surfaces, as the uint32 length wraps) does the
same; but a `next_pos` violation (`next_pos > 0` yet different from
`offset + event_size`, which subsumes `next_pos < offset` since
`event_size > 0`) merely breaks out of the loop - the function then
returns the binlog error with `binlog_position` untouched, not rewound
to the last known commit. -/
theorem C4_framer_validation_behaviour (file : List Nat) (nfe : Bool)
    (st : AVRO_INSTANCE) (v : LoopVars) :
    ((pread file BINLOG_EVENT_HDR_LEN v.pos).length = BINLOG_EVENT_HDR_LEN →
      MAX_EVENT_TYPE_MARIADB10 <
        (parse_rep_header (pread file BINLOG_EVENT_HDR_LEN v.pos)).event_type →
      avro_read_step file nfe st v =
        StepOut.ret AvroBinlogEnd.AVRO_BINLOG_ERROR
          { st with binlog_position := v.last_known_commit, current_pos := v.pos } []) ∧
    ((pread file BINLOG_EVENT_HDR_LEN v.pos).length = BINLOG_EVENT_HDR_LEN →
      ¬ MAX_EVENT_TYPE_MARIADB10 <
          (parse_rep_header (pread file BINLOG_EVENT_HDR_LEN v.pos)).event_type →
      (parse_rep_header (pread file BINLOG_EVENT_HDR_LEN v.pos)).event_size = 0 →
      avro_read_step file nfe st v =
        StepOut.ret AvroBinlogEnd.AVRO_BINLOG_ERROR
          { st with binlog_position := v.last_known_commit, current_pos := v.pos } []) ∧
    ((pread file BINLOG_EVENT_HDR_LEN v.pos).length = BINLOG_EVENT_HDR_LEN →
      ¬ MAX_EVENT_TYPE_MARIADB10 <
          (parse_rep_header (pread file BINLOG_EVENT_HDR_LEN v.pos)).event_type →
      ¬ (parse_rep_header (pread file BINLOG_EVENT_HDR_LEN v.pos)).event_size = 0 →
      read_event_data file (parse_rep_header (pread file BINLOG_EVENT_HDR_LEN v.pos)) v.pos = none →
      avro_read_step file nfe st v =
        StepOut.ret AvroBinlogEnd.AVRO_BINLOG_ERROR
          { st with binlog_position := v.last_known_commit, current_pos := v.pos } []) ∧
    (∀ ptr,
      (pread file BINLOG_EVENT_HDR_LEN v.pos).length = BINLOG_EVENT_HDR_LEN →
      ¬ MAX_EVENT_TYPE_MARIADB10 <
          (parse_rep_header (pread file BINLOG_EVENT_HDR_LEN v.pos)).event_type →
      ¬ (parse_rep_header (pread file BINLOG_EVENT_HDR_LEN v.pos)).event_size = 0 →
      read_event_data file (parse_rep_header (pread file BINLOG_EVENT_HDR_LEN v.pos)) v.pos = some ptr →
      0 < (parse_rep_header (pread file BINLOG_EVENT_HDR_LEN v.pos)).next_pos →
      ¬ (parse_rep_header (pread file BINLOG_EVENT_HDR_LEN v.pos)).next_pos =
          v.pos + (parse_rep_header (pread file BINLOG_EVENT_HDR_LEN v.pos)).event_size →
      (∃ st2 acts, avro_read_step file nfe st v = StepOut.brk st2 acts ∧
        st2.binlog_position = st.binlog_position)) := by
  refine ⟨?_, ?_, ?_, ?_⟩
  · intro h1 h2
    simp [avro_read_step, h1, h2]
  · intro h1 h2 h3
    simp [avro_read_step, h1, h2, h3]
  · intro h1 h2 h3 h4
    simp [avro_read_step, h1, h2, h3, h4]
  · intro ptr h1 h2 h3 h4 h5 h6
    refine ⟨(dispatch_event st (parse_rep_header (pread file BINLOG_EVENT_HDR_LEN v.pos)) ptr
              (if v.pending_transaction == 0 then { v with last_known_commit := v.pos } else v)).1,
            (dispatch_event st (parse_rep_header (pread file BINLOG_EVENT_HDR_LEN v.pos)) ptr
              (if v.pending_transaction == 0 then { v with last_known_commit := v.pos } else v)).2.2,
            ?_, dispatch_event_binlog_position _ _ _ _⟩
    by_cases hlt : (parse_rep_header (pread file BINLOG_EVENT_HDR_LEN v.pos)).next_pos < v.pos
    · simp [avro_read_step, h1, h2, h3, h4, h5, h6, hlt]
    · simp [avro_read_step, h1, h2, h3, h4, h5, h6, hlt]

/-- Counterexample for C4: in `file4` the event framed at offset 31
declares `next_pos = 63` instead of 58.  The run returns the binlog
error, but `binlog_position` stays at its initial value 4 even though
the last position known to be outside a transaction (recorded by the
loop while framing the offending event) was 31. -/
theorem C4_counterexample_next_pos_violation_skips_checkpoint :
    (avro_read_all_events file4 false st4 3).1 = AvroBinlogEnd.AVRO_BINLOG_ERROR ∧
    (avro_read_all_events file4 false st4 3).2.1.binlog_position = 4 ∧
    ¬ (avro_read_all_events file4 false st4 3).2.1.binlog_position = 31 := by
  decide

/-- Witness for C4: an event with invalid type 0xa4 at offset 4 makes
the step return the binlog error with the checkpoint at the last known
commit. -/
theorem C4_witness :
    avro_read_step
        ([0xfe, 0x62, 0x69, 0x6e] ++ mkEventHeader 0 0xa4 27 31 0 ++ List.replicate 8 0)
        false stDefault vInit =
      StepOut.ret AvroBinlogEnd.AVRO_BINLOG_ERROR
        { stDefault with binlog_position := 4, current_pos := 4 } [] :=
  (C4_framer_validation_behaviour _ false stDefault vInit).1 (by decide) (by decide)

/-- The QUERY_EVENT handler performs only DDL bookkeeping: its action
list never contains a flush, notify or checkpoint action. -/
theorem flushTrace_handle_query_event (hdr : REP_HEADER) (ptr : List Nat) (p : Nat) :
    flushTrace (handle_query_event hdr ptr p).2 = [] := by
  unfold handle_query_event
  dsimp only
  repeat' split
  all_goals rfl

/-- C7: on an XID_EVENT that reaches either threshold (`row_count` at or
above `row_target`, or the incremented `trx_count` at or above
`trx_target`) the driver performs, in this order: notify waiting
clients, flush all Avro writers, write the conversion checkpoint - and
resets both counters to zero.  Below the thresholds it only increments
`trx_count`.  A QUERY_EVENT (in particular a non-transactional COMMIT)
never triggers any of the three flush actions. -/
theorem C7_xid_flush_order_and_reset (st : AVRO_INSTANCE) (hdr : REP_HEADER)
    (ptr : List Nat) (v : LoopVars) :
    (hdr.event_type = XID_EVENT →
      (st.row_target ≤ st.row_count ∨ st.trx_target ≤ st.trx_count + 1) →
      dispatch_event st hdr ptr v =
        ({ st with row_count := 0, trx_count := 0 },
         { v with pending_transaction := 0 },
         [DriverAction.notifyClients, DriverAction.flushTables,
          DriverAction.saveState])) ∧
    (hdr.event_type = XID_EVENT →
      ¬ (st.row_target ≤ st.row_count ∨ st.trx_target ≤ st.trx_count + 1) →
      dispatch_event st hdr ptr v =
        ({ st with trx_count := st.trx_count + 1 },
         { v with pending_transaction := 0 }, [])) ∧
    (hdr.event_type = QUERY_EVENT →
      flushTrace (dispatch_event st hdr ptr v).2.2 = []) := by
  refine ⟨?_, ?_, ?_⟩
  · intro h hth
    rcases hth with hth | hth <;>
      simp [dispatch_event, h, XID_EVENT, FORMAT_DESCRIPTION_EVENT, STOP_EVENT,
        TABLE_MAP_EVENT, WRITE_ROWS_EVENTv0, DELETE_ROWS_EVENTv1, WRITE_ROWS_EVENTv2,
        DELETE_ROWS_EVENTv2, ROTATE_EVENT, MARIADB10_GTID_EVENT, QUERY_EVENT, hth]
  · intro h hth
    rw [not_or] at hth
    simp [dispatch_event, h, XID_EVENT, FORMAT_DESCRIPTION_EVENT, STOP_EVENT,
      TABLE_MAP_EVENT, WRITE_ROWS_EVENTv0, DELETE_ROWS_EVENTv1, WRITE_ROWS_EVENTv2,
      DELETE_ROWS_EVENTv2, ROTATE_EVENT, MARIADB10_GTID_EVENT, QUERY_EVENT,
      hth.1, hth.2]
  · intro h
    simp [dispatch_event, h, XID_EVENT, FORMAT_DESCRIPTION_EVENT, STOP_EVENT,
      TABLE_MAP_EVENT, WRITE_ROWS_EVENTv0, DELETE_ROWS_EVENTv1, WRITE_ROWS_EVENTv2,
      DELETE_ROWS_EVENTv2, ROTATE_EVENT, MARIADB10_GTID_EVENT, QUERY_EVENT,
      flushTrace_handle_query_event]

/-- Counterexample for C7: the claim puts the flush first, but in the
concrete committed transaction of `file7` the driver notifies clients
before flushing; and in `file7b` a non-transactional COMMIT raises
`trx_count` to the target (1) without triggering any flush action. -/
theorem C7_counterexample_notify_precedes_flush :
    flushTrace (avro_read_all_events file7 false st7 4).2.2 =
      [DriverAction.notifyClients, DriverAction.flushTables, DriverAction.saveState] ∧
    ¬ ([DriverAction.notifyClients, DriverAction.flushTables, DriverAction.saveState] =
       [DriverAction.flushTables, DriverAction.notifyClients, DriverAction.saveState]) ∧
    flushTrace (avro_read_all_events file7b false st7 4).2.2 = [] ∧
    (avro_read_all_events file7b false st7 4).2.1.trx_count = 1 ∧
    st7.trx_target = 1 := by
  decide

/-- Witness for C7: the committing XID of `file7`, dispatched against
the flush-every-transaction state, performs notify-flush-checkpoint and
zeroes both counters. -/
theorem C7_witness :
    dispatch_event st7
        { timestamp := 2, event_type := XID_EVENT, serverid := 1,
          event_size := 27, next_pos := 63, flags := 0 }
        (List.replicate 8 0) vInit =
      ({ st7 with row_count := 0, trx_count := 0 },
       { vInit with pending_transaction := 0 },
       [DriverAction.notifyClients, DriverAction.flushTables,
        DriverAction.saveState]) :=
  (C7_xid_flush_order_and_reset st7 _ _ vInit).1 rfl (Or.inr (by decide))

/-- A search pattern that sits at the head of the string is found at
index 0. -/
theorem strFind_prefix (hay pat : List Char) (h : pat.isPrefixOf hay = true) :
    strFind hay pat = some 0 := by
  unfold strFind
  rw [if_pos h]

/-- Registration requests of the shape `REGISTER UUID=<36-char uuid><S>`
with a separator-free UUID reduce to a TYPE keyword search over the
remainder `S` (minus its first byte, which the off-by-one
`sizeof(reg_uuid) + uuid_len` offset skips). -/
theorem do_registration_shape (uuid S : List Char) (h36 : uuid.length = 36)
    (hsep : ∀ c ∈ uuid, ¬ c = ',' ∧ ¬ c = ' ') :
    avro_client_do_registration ("REGISTER UUID=".toList ++ uuid ++ S) =
      (match strFind (S.drop 1) "TYPE=".toList with
       | some i =>
           if ((S.drop 1).drop (i + 5)).take 4 == "AVRO".toList then
             { ret := 1, uuid := uuid, format := some AvroFormat.AVRO }
           else if ((S.drop 1).drop (i + 5)).take 4 == "JSON".toList then
             { ret := 1, uuid := uuid, format := some AvroFormat.JSON }
           else { ret := 0, uuid := uuid, format := none }
       | none => { ret := 0, uuid := uuid, format := none }) := by
  have h14 : ("REGISTER UUID=".toList : List Char).length = 14 := rfl
  have hpre : ("REGISTER UUID=".toList : List Char).isPrefixOf
      ("REGISTER UUID=".toList ++ uuid ++ S) = true := by
    rw [List.isPrefixOf_iff_prefix, List.append_assoc]
    exact List.prefix_append _ _
  have hfind := strFind_prefix _ _ hpre
  have hlen : ("REGISTER UUID=".toList ++ uuid ++ S).length = 50 + S.length := by
    simp [List.length_append, h36, h14]
    omega
  have hdrop14 : ("REGISTER UUID=".toList ++ uuid ++ S).drop 14 = uuid ++ S := by
    rw [List.append_assoc]
    exact List.drop_left' h14
  have htake36 : (uuid ++ S).take 36 = uuid := List.take_left' h36
  have hw1 : uuid.takeWhile (fun c => c != ',') = uuid := by
    rw [List.takeWhile_eq_self_iff]
    intro c hc
    simpa using (hsep c hc).1
  have hw2 : uuid.takeWhile (fun c => c != ' ') = uuid := by
    rw [List.takeWhile_eq_self_iff]
    intro c hc
    simpa using (hsep c hc).2
  have hdrop51 : ("REGISTER UUID=".toList ++ uuid ++ S).drop (14 + 1 + 36) = S.drop 1 := by
    have h50 : ("REGISTER UUID=".toList ++ uuid).length = 50 := by
      simp [List.length_append, h36, h14]
    calc ("REGISTER UUID=".toList ++ uuid ++ S).drop (14 + 1 + 36)
        = (("REGISTER UUID=".toList ++ uuid) ++ S).drop
            (("REGISTER UUID=".toList ++ uuid).length + 1) := by rw [h50]
      _ = S.drop 1 := List.drop_append 1
  simp only [avro_client_do_registration, hfind, hlen, hdrop14, h14, CDC_UUID_LEN]
  have hul : (if ((36 : Nat) : Int) < (((50 + S.length) : Nat) : Int) - ((14 : Nat) : Int)
      then ((36 : Nat) : Int) else (((50 + S.length) : Nat) : Int) - ((14 : Nat) : Int)) =
      ((36 : Nat) : Int) := by
    split <;> omega
  simp only [hul, Int.toNat_natCast, htake36, hw1, hw2, h36]
  rw [hdrop51]
  have hcond : (0 : Int) < (((50 + S.length) : Nat) : Int) - ((14 : Nat) : Int) := by
    push_cast
    omega
  simp only [lt_self_iff_false, if_false, hcond, if_true]

/-- C9: the amended registration contract.  For every 36-character UUID
free of comma and space separators, a REGISTER request carrying
`TYPE=AVRO` or `TYPE=JSON` succeeds - the server replies the literal
`OK` and the session enters the Registered state - while a REGISTER
request with the UUID alone (no TYPE field) fails: the server replies
exactly `ERR, code 12, msg: Registration failed` and closes the
connection.  The TYPE field is thus mandatory, not optional as the
original claim states. -/
theorem C9_registration_requires_type (uuid : List Char)
    (h36 : uuid.length = 36)
    (hsep : ∀ c ∈ uuid, ¬ c = ',' ∧ ¬ c = ' ') :
    avro_client_handle_registration
        ("REGISTER UUID=".toList ++ uuid ++ ", TYPE=AVRO".toList) =
      { state := AVRO_CLIENT_REGISTERED, reply := "OK".toList, closed := false } ∧
    avro_client_handle_registration
        ("REGISTER UUID=".toList ++ uuid ++ ", TYPE=JSON".toList) =
      { state := AVRO_CLIENT_REGISTERED, reply := "OK".toList, closed := false } ∧
    avro_client_handle_registration ("REGISTER UUID=".toList ++ uuid) =
      { state := AVRO_CLIENT_ERRORED,
        reply := "ERR, code 12, msg: Registration failed".toList, closed := true } := by
  refine ⟨?_, ?_, ?_⟩
  · unfold avro_client_handle_registration
    rw [do_registration_shape uuid (", TYPE=AVRO".toList) h36 hsep]
    rfl
  · unfold avro_client_handle_registration
    rw [do_registration_shape uuid (", TYPE=JSON".toList) h36 hsep]
    rfl
  · unfold avro_client_handle_registration
    rw [show ("REGISTER UUID=".toList ++ uuid) =
          ("REGISTER UUID=".toList ++ uuid ++ ([] : List Char)) from
        (List.append_nil _).symm]
    rw [do_registration_shape uuid [] h36 hsep]
    rfl

/-- Counterexample for C9: a REGISTER request with a well-formed
36-character UUID but no TYPE field is rejected with the error reply,
although the claim says the TYPE field is optional and registration
succeeds. -/
theorem C9_counterexample_uuid_without_type_fails :
    avro_client_handle_registration
        ("REGISTER UUID=".toList ++ "123e4567-e89b-12d3-a456-426614174000".toList) =
      { state := AVRO_CLIENT_ERRORED,
        reply := "ERR, code 12, msg: Registration failed".toList, closed := true } ∧
    ("123e4567-e89b-12d3-a456-426614174000".toList : List Char).length = 36 := by
  constructor
  · decide
  · decide

/-- Witness for C9: a concrete UUID with `TYPE=AVRO` registers
successfully. -/
theorem C9_witness :
    avro_client_handle_registration
        ("REGISTER UUID=".toList ++ "123e4567-e89b-12d3-a456-426614174000".toList ++
         ", TYPE=AVRO".toList) =
      { state := AVRO_CLIENT_REGISTERED, reply := "OK".toList, closed := false } :=
  (C9_registration_requires_type "123e4567-e89b-12d3-a456-426614174000".toList
    (by decide) (by decide)).1
